import Mathlib

/-!
Verification of the CSV inventory loader (`helpers/inventory_loader.py`).

The module under verification loads device connection records from a CSV
inventory file (`load_device_from_csv`), creates a device handle from such a
record (`connect_to_device`, falling back to a `MockDevice` stand-in when the
pyATS backend is unavailable), and writes a fixed sample inventory
(`create_sample_csv`).

Shallow embedding conventions:
- A CSV file is modelled at the cell level: a header line (list of column
  names, exactly as `csv.DictReader.fieldnames` reports them) and data rows
  (lists of cell strings).  `csv.DictReader`'s per-row dictionary is modelled
  by `rowGet`: a key present in the header maps to the cell at the key's last
  header position (later duplicate columns win, as in `dict(zip(...))`), or to
  Python `None` (the inner `Option`) when the row is too short (`restval`);
  a key absent from the header is absent from the dictionary (the outer
  `Option`).  `DictReader` skips rows that are entirely empty (blank lines).
- The filesystem is a function `String → Option CSVFile` covering both the
  `os.path.exists` test and the subsequent read.
- Python exceptions become the `PyError` type; `raise` becomes `Except.error`.
  The `try/except (csv.Error, ValueError)` wrapper of the loader re-raises
  those two classes as a fresh `ValueError` with a prefixed message, and
  re-raises every other exception unchanged (`except Exception: raise`).
- `str.strip()` is `pyStrip`; `int(...)` on a string is `pyInt` (Python
  accepts surrounding whitespace, a sign, and single underscores between
  decimal digits, and raises `ValueError` otherwise).
- Python string formatting of a list of strings (`f"...{missing_fields}"`)
  is `pyReprStrList`.
-/

namespace InventoryLoader

/-- Python exception classes that can arise in this module. -/
inductive PyError where
  | fileNotFoundError (msg : String)
  | valueError (msg : String)
  /-- An error raised by the `csv` module while parsing (`csv.Error`). -/
  | csvError (msg : String)
  | attributeError (msg : String)
  | keyError (msg : String)
deriving DecidableEq, Repr

/-- Result of `str(e)` on the exception, as interpolated into messages. -/
def PyError.msg : PyError → String
  | .fileNotFoundError m => m
  | .valueError m => m
  | .csvError m => m
  | .attributeError m => m
  | .keyError m => m

/-- Exception classes caught by `except (csv.Error, ValueError)`. -/
def PyError.isParse : PyError → Bool
  | .valueError _ => true
  | .csvError _ => true
  | _ => false

/-- Whitespace for Python's `str.strip()` (ASCII portion). -/
def isPySpace (c : Char) : Bool :=
  c == ' ' || c == '\t' || c == '\n' || c == '\r' || c == '\x0b' || c == '\x0c'

/-- Python `str.strip()`: drop leading and trailing whitespace. -/
def pyStrip (s : String) : String :=
  String.mk (((s.data.dropWhile isPySpace).reverse.dropWhile isPySpace).reverse)

/-- After an initial digit: Python decimal grammar `digit (["_"] digit)*`. -/
def digitsTail : List Char → Bool
  | [] => true
  | '_' :: c :: rest => c.isDigit && digitsTail rest
  | c :: rest => c.isDigit && digitsTail rest

/-- Nonempty decimal digit run, single underscores allowed between digits. -/
def pyDigits : List Char → Bool
  | [] => false
  | c :: rest => c.isDigit && digitsTail rest

/-- Value of a digit run, ignoring underscore separators. -/
def digitsVal (l : List Char) : Nat :=
  l.foldl (fun acc c => if c == '_' then acc else acc * 10 + (c.toNat - 48)) 0

/-- Numeric core of Python `int`: an optional sign followed by digits, or
nothing parseable. -/
def pyIntCore : List Char → Option Int
  | '+' :: rest => if pyDigits rest then some (Int.ofNat (digitsVal rest)) else none
  | '-' :: rest => if pyDigits rest then some (-(Int.ofNat (digitsVal rest))) else none
  | t => if pyDigits t then some (Int.ofNat (digitsVal t)) else none

/-- Python `int(s)` on a string: optional surrounding whitespace, optional
sign, decimal digits; raises `ValueError` (quoting the original string)
on anything else. -/
def pyInt (s : String) : Except PyError Int :=
  match pyIntCore (pyStrip s).data with
  | some n => .ok n
  | none => .error (.valueError ("invalid literal for int() with base 10: '" ++ s ++ "'"))

/-- A CSV file at the cell level: the header line and the data rows. -/
structure CSVFile where
  header : List String
  rows : List (List String)
deriving DecidableEq, Repr

/-- The key/value pairs of `csv.DictReader`'s dictionary for one row:
column `i`'s name paired with cell `i`, or Python `None` past the row's end. -/
def rowCells (header row : List String) : List (String × Option String) :=
  header.enum.map (fun p => (p.2, row[p.1]?))

/-- Dictionary lookup in a `DictReader` row: outer `none` when the column is
absent from the header, `some none` for Python `None` (short row); for
duplicate column names the last occurrence wins, as in `dict(zip(...))`. -/
def rowGet (header row : List String) (key : String) : Option (Option String) :=
  ((rowCells header row).reverse.find? (fun p => p.1 == key)).map Prod.snd

/-- The record assembled from a matching CSV row. -/
structure DeviceInfo where
  device_name : String
  hostname : String
  username : String
  password : String
  device_type : String
  protocol : String
  port : Int
  timeout : Int
deriving DecidableEq, Repr

/-- The module's `required_fields` list (same in the loader and in
`connect_to_device`). -/
def required_fields : List String :=
  ["device_name", "hostname", "username", "password", "device_type"]

/-- Python repr of a list of plain strings, as f-string interpolation shows
it, e.g. `['username']`. -/
def pyReprStrList (l : List String) : String :=
  "[" ++ String.intercalate ", " (l.map (fun s => "'" ++ s ++ "'")) ++ "]"

/-- Required field access `row[key].strip()`: `AttributeError` when the cell
is Python `None` (short row), `KeyError` when the column is absent. -/
def reqField (header row : List String) (key : String) : Except PyError String :=
  match rowGet header row key with
  | none => .error (.keyError key)
  | some none => .error (.attributeError "'NoneType' object has no attribute 'strip'")
  | some (some v) => .ok (pyStrip v)

/-- Optional string access `row.get(key, default).strip()`: the default is
also stripped; a Python `None` cell still raises `AttributeError`. -/
def optStrField (header row : List String) (key dflt : String) : Except PyError String :=
  match rowGet header row key with
  | none => .ok (pyStrip dflt)
  | some none => .error (.attributeError "'NoneType' object has no attribute 'strip'")
  | some (some v) => .ok (pyStrip v)

/-- Optional integer access `int(row.get(key, d)) if row.get(key) else d`:
an absent column, a `None` cell, and an empty cell are all falsy and give the
default; otherwise the string is parsed by `int`. -/
def optIntField (header row : List String) (key : String) (dflt : Int) : Except PyError Int :=
  match rowGet header row key with
  | none => .ok dflt
  | some none => .ok dflt
  | some (some v) => if v = "" then .ok dflt else pyInt v

/-- The `device_info` dictionary literal built for a matching row
(lines 103-112 of the source), fields evaluated in source order; the first
failing entry raises. -/
def buildDeviceInfo (header row : List String) : Except PyError DeviceInfo := do
  let dn ← reqField header row "device_name"
  let hn ← reqField header row "hostname"
  let un ← reqField header row "username"
  let pw ← reqField header row "password"
  let dt ← reqField header row "device_type"
  let proto ← optStrField header row "protocol" "ssh"
  let port ← optIntField header row "port" 22
  let tmo ← optIntField header row "timeout" 120
  return { device_name := dn, hostname := hn, username := un, password := pw,
           device_type := dt, protocol := proto, port := port, timeout := tmo }

/-- The row loop (lines 100-116): `DictReader` skips entirely empty rows;
the first row whose stripped `device_name` cell equals the requested name is
assembled; a full scan without a match raises `ValueError`. -/
def findDevice (device_name csv_path : String) (header : List String) :
    List (List String) → Except PyError DeviceInfo
  | [] => .error (.valueError
      ("Device '" ++ device_name ++ "' not found in CSV file: " ++ csv_path))
  | row :: rest =>
    if row = [] then findDevice device_name csv_path header rest
    else
      match rowGet header row "device_name" with
      | none => .error (.keyError "device_name")
      | some none => .error (.attributeError "'NoneType' object has no attribute 'strip'")
      | some (some v) =>
        if pyStrip v = device_name then buildDeviceInfo header row
        else findDevice device_name csv_path header rest

/-- Body of the `try` block (lines 90-116): header validation with
`all(field in reader.fieldnames ...)`, then the row scan. -/
def readCSVBody (device_name csv_path : String) (file : CSVFile) :
    Except PyError DeviceInfo :=
  if required_fields.all (fun f => file.header.contains f) then
    findDevice device_name csv_path file.header file.rows
  else
    .error (.valueError ("CSV file missing required fields: " ++
      pyReprStrList (required_fields.filter (fun f => !(file.header.contains f)))))

/-- Module constant `DEFAULT_CSV_PATH`, from the `DEVICE_INVENTORY_CSV`
environment variable with literal default. -/
def DEFAULT_CSV_PATH (env : Option String) : String :=
  env.getD "device_inventory.csv"

/-- Path resolution at lines 84-85: an explicit argument wins, else the
environment-configured default. -/
def resolve_csv_path : Option String → Option String → String
  | some p, _ => p
  | none, env => DEFAULT_CSV_PATH env

/-- The loader `load_device_from_csv(device_name, csv_path)`.  `env` is the
value of `DEVICE_INVENTORY_CSV`; `fs` is the filesystem (covering both the
`os.path.exists` check and the read).  The `try/except` clauses re-raise
`csv.Error`/`ValueError` as a prefixed `ValueError` and let every other
exception propagate unchanged. -/
def load_device_from_csv (device_name : String) (csv_path : Option String)
    (env : Option String) (fs : String → Option CSVFile) :
    Except PyError DeviceInfo :=
  let path := resolve_csv_path csv_path env
  match fs path with
  | none => .error (.fileNotFoundError ("Device inventory CSV file not found: " ++ path))
  | some file =>
    match readCSVBody device_name path file with
    | .ok info => .ok info
    | .error e =>
      if e.isParse then
        .error (.valueError ("Error reading device inventory CSV: " ++ e.msg))
      else .error e

/-- The file written by `create_sample_csv` (lines 183-230): `csv.DictWriter`
renders the integer cells with `str()`. -/
def create_sample_csv : CSVFile :=
  { header := ["device_name", "hostname", "username", "password", "device_type",
               "protocol", "port", "timeout"],
    rows := [
      ["router1", "192.168.1.1", "admin", "password", "cisco_ios", "ssh", "22", "120"],
      ["switch1", "192.168.1.2", "admin", "password", "cisco_ios", "ssh", "22", "120"],
      ["linux1", "192.168.1.10", "root", "password", "linux", "ssh", "22", "120"]] }

/-- The `device_info` dictionary handed to `connect_to_device`: a Python dict
whose possible keys are the ones this module reads.  A `none` field models an
absent key. -/
structure DeviceDict where
  device_name : Option String := none
  hostname : Option String := none
  username : Option String := none
  password : Option String := none
  device_type : Option String := none
  protocol : Option String := none
  port : Option Int := none
  timeout : Option Int := none
  os : Option String := none
deriving DecidableEq, Repr

/-- Python `key in device_info` for the keys this module tests. -/
def dictHasKey (d : DeviceDict) : String → Bool
  | "device_name" => d.device_name.isSome
  | "hostname" => d.hostname.isSome
  | "username" => d.username.isSome
  | "password" => d.password.isSome
  | "device_type" => d.device_type.isSome
  | "protocol" => d.protocol.isSome
  | "port" => d.port.isSome
  | "timeout" => d.timeout.isSome
  | "os" => d.os.isSome
  | _ => false

/-- Line 141: the required keys absent from the input dictionary. -/
def connect_missing (d : DeviceDict) : List String :=
  required_fields.filter (fun f => !(dictHasKey d f))

/-- The fallback `MockDevice` stand-in (lines 26-58, bound to `Device` when
pyATS is unavailable): `Device(device_info['device_name'], **device_info)`
stores the name, a cleared `_connected` flag, and the whole input dictionary
as `connection_info`. -/
structure MockDevice where
  name : String
  connected : Bool
  connection_info : DeviceDict
deriving DecidableEq, Repr

namespace MockDevice

/-- Method `is_connected`: reports the internal flag. -/
def is_connected (d : MockDevice) : Bool :=
  d.connected

/-- Method `connect(**kwargs)`: sets the flag (and logs). -/
def connect (d : MockDevice) : MockDevice :=
  { d with connected := true }

/-- Method `disconnect()`: clears the flag (and logs). -/
def disconnect (d : MockDevice) : MockDevice :=
  { d with connected := false }

/-- Method `execute(command)`: placeholder text naming the command. -/
def execute (_ : MockDevice) (command : String) : String :=
  "Mock output for command: " ++ command

/-- Method `parse(command)`: the dict `{"mock": ..., "command": command}`. -/
def parse (_ : MockDevice) (command : String) : List (String × String) :=
  [("mock", "parsed output"), ("command", command)]

/-- Method `configure(config)`: placeholder text naming the config. -/
def configure (_ : MockDevice) (config : String) : String :=
  "Mock config applied: " ++ config

/-- Method `enable()`: fixed placeholder text. -/
def enable (_ : MockDevice) : String :=
  "Mock enable successful"

end MockDevice

/-- The `default` connection block of the testbed dictionary
(lines 159-166). -/
structure ConnectionDefault where
  protocol : String
  ip : String
  port : Int
  username : String
  password : String
  connection_timeout : Int
deriving DecidableEq, Repr

/-- The per-device entry of the testbed dictionary (lines 155-168). -/
structure TestbedDevice where
  type : String
  os : String
  connections_default : ConnectionDefault
deriving DecidableEq, Repr

/-- What `connect_to_device` hands back: the mock stand-in when pyATS is
absent, or (when pyATS is present) the single-device testbed dictionary given
to `loader.load` — the backend call itself is external to this module. -/
inductive DeviceHandle where
  | mock (d : MockDevice)
  | pyats (device_name : String) (entry : TestbedDevice)
deriving DecidableEq, Repr

/-- The factory `connect_to_device(device_info)` (lines 125-181), with the
module-level `PYATS_AVAILABLE` flag made an explicit argument.  The required
key check precedes both branches; required values are read with `getD`
placeholders that are never used, since the check guarantees presence. -/
def connect_to_device (pyats_available : Bool) (device_info : DeviceDict) :
    Except PyError DeviceHandle :=
  if connect_missing device_info = [] then
    if !pyats_available then
      .ok (.mock { name := device_info.device_name.getD "",
                   connected := false,
                   connection_info := device_info })
    else
      .ok (.pyats (device_info.device_name.getD "")
        { type := device_info.device_type.getD "",
          os := device_info.os.getD "ios",
          connections_default :=
            { protocol := device_info.protocol.getD "ssh",
              ip := device_info.hostname.getD "",
              port := device_info.port.getD 22,
              username := device_info.username.getD "",
              password := device_info.password.getD "",
              connection_timeout := device_info.timeout.getD 120 } })
  else
    .error (.valueError ("Missing required device information: " ++
      pyReprStrList (connect_missing device_info)))

/-! Helper lemmas about the loader pipeline, shared by the claim theorems. -/

/-- An empty row carries no string cell under any key. -/
theorem rowGet_nil_ne (header : List String) (k v : String) :
    rowGet header [] k ≠ some (some v) := by
  intro h
  obtain ⟨p, hp, hp2⟩ := Option.map_eq_some'.mp h
  have hmem : p ∈ (rowCells header ([] : List String)).reverse :=
    List.mem_of_find?_eq_some hp
  rw [List.mem_reverse] at hmem
  obtain ⟨q, hq, rfl⟩ := List.mem_map.mp hmem
  simp at hp2

/-- A row whose stripped `device_name` differs from the requested name is
passed over by the scan loop. -/
theorem findDevice_cons_skip (name path : String) (header : List String)
    (q : List String) (rest : List (List String)) (v : String)
    (hv : rowGet header q "device_name" = some (some v)) (hne : pyStrip v ≠ name) :
    findDevice name path header (q :: rest) = findDevice name path header rest := by
  have hq : q ≠ [] := by rintro rfl; exact rowGet_nil_ne header "device_name" v hv
  simp [findDevice, hq, hv, hne]

/-- The scan loop skips any prefix of non-matching rows. -/
theorem findDevice_append (name path : String) (header : List String)
    (pre rest : List (List String))
    (hpre : ∀ q ∈ pre, ∃ v,
      rowGet header q "device_name" = some (some v) ∧ pyStrip v ≠ name) :
    findDevice name path header (pre ++ rest) = findDevice name path header rest := by
  induction pre with
  | nil => rfl
  | cons q pre ih =>
    obtain ⟨v, hv, hne⟩ := hpre q (List.mem_cons_self q pre)
    rw [List.cons_append, findDevice_cons_skip name path header q (pre ++ rest) v hv hne]
    exact ih (fun r hr => hpre r (List.mem_cons_of_mem q hr))

/-- A row whose stripped `device_name` equals the requested name is the one
the loop assembles. -/
theorem findDevice_cons_found (name path : String) (header : List String)
    (r : List String) (rest : List (List String)) (v : String)
    (hv : rowGet header r "device_name" = some (some v)) (heq : pyStrip v = name) :
    findDevice name path header (r :: rest) = buildDeviceInfo header r := by
  have hr : r ≠ [] := by rintro rfl; exact rowGet_nil_ne header "device_name" v hv
  simp [findDevice, hr, hv, heq]

/-- A `None` cell under `device_name` (short row) raises `AttributeError`
from the loop's `.strip()` call. -/
theorem findDevice_cons_shortRow (name path : String) (header : List String)
    (r : List String) (rest : List (List String)) (hr : r ≠ [])
    (hv : rowGet header r "device_name" = some none) :
    findDevice name path header (r :: rest) =
      .error (.attributeError "'NoneType' object has no attribute 'strip'") := by
  simp [findDevice, hr, hv]

/-- Row-dict access under a present string cell strips it. -/
theorem reqField_some (header row : List String) (k v : String)
    (h : rowGet header row k = some (some v)) :
    reqField header row k = .ok (pyStrip v) := by
  simp [reqField, h]

/-- Optional string access under a present string cell strips it. -/
theorem optStrField_some (header row : List String) (k d v : String)
    (h : rowGet header row k = some (some v)) :
    optStrField header row k d = .ok (pyStrip v) := by
  simp [optStrField, h]

/-- Optional integer access under a present nonempty cell parses it. -/
theorem optIntField_some (header row : List String) (k : String) (d : Int)
    (v : String) (h : rowGet header row k = some (some v)) (hv : v ≠ "") :
    optIntField header row k d = pyInt v := by
  simp [optIntField, h, hv]

/-- The assembled record, given the outcome of every field access. -/
theorem buildDeviceInfo_fields (header row : List String)
    (dn hn un pw dt pr : String) (po tm : Int)
    (h1 : reqField header row "device_name" = .ok dn)
    (h2 : reqField header row "hostname" = .ok hn)
    (h3 : reqField header row "username" = .ok un)
    (h4 : reqField header row "password" = .ok pw)
    (h5 : reqField header row "device_type" = .ok dt)
    (h6 : optStrField header row "protocol" "ssh" = .ok pr)
    (h7 : optIntField header row "port" 22 = .ok po)
    (h8 : optIntField header row "timeout" 120 = .ok tm) :
    buildDeviceInfo header row = .ok ⟨dn, hn, un, pw, dt, pr, po, tm⟩ := by
  unfold buildDeviceInfo
  rw [h1, h2, h3, h4, h5, h6, h7, h8]
  rfl

/-- A failing `port` entry aborts the dict literal with that error. -/
theorem buildDeviceInfo_port_error (header row : List String)
    (dn hn un pw dt pr : String) (e : PyError)
    (h1 : reqField header row "device_name" = .ok dn)
    (h2 : reqField header row "hostname" = .ok hn)
    (h3 : reqField header row "username" = .ok un)
    (h4 : reqField header row "password" = .ok pw)
    (h5 : reqField header row "device_type" = .ok dt)
    (h6 : optStrField header row "protocol" "ssh" = .ok pr)
    (h7 : optIntField header row "port" 22 = .error e) :
    buildDeviceInfo header row = .error e := by
  unfold buildDeviceInfo
  rw [h1, h2, h3, h4, h5, h6, h7]
  rfl

/-- The loader, once the file lookup has succeeded. -/
theorem load_eq_of_fs (name : String) (csv_path env : Option String)
    (fs : String → Option CSVFile) (file : CSVFile)
    (hfs : fs (resolve_csv_path csv_path env) = some file) :
    load_device_from_csv name csv_path env fs =
      (match readCSVBody name (resolve_csv_path csv_path env) file with
       | .ok info => .ok info
       | .error e =>
         if e.isParse then
           .error (.valueError ("Error reading device inventory CSV: " ++ e.msg))
         else .error e) := by
  simp only [load_device_from_csv]
  rw [hfs]

/-- With a valid header the body is the row scan. -/
theorem readCSVBody_valid (name path : String) (file : CSVFile)
    (h : required_fields.all (fun f => file.header.contains f) = true) :
    readCSVBody name path file = findDevice name path file.header file.rows := by
  unfold readCSVBody
  rw [if_pos h]

/-- `pyInt` either parses or raises a `ValueError`. -/
theorem pyInt_cases (s : String) :
    (∃ n, pyInt s = .ok n) ∨
    pyInt s = .error (.valueError ("invalid literal for int() with base 10: '" ++ s ++ "'")) := by
  cases h : pyIntCore (pyStrip s).data <;> simp [pyInt, h]

/-- `pyInt` never raises `FileNotFoundError`. -/
theorem pyInt_ne_fnf (s m : String) :
    pyInt s ≠ .error (.fileNotFoundError m) := by
  cases h : pyIntCore (pyStrip s).data <;> simp [pyInt, h]

/-- Required field access never raises `FileNotFoundError`. -/
theorem reqField_ne_fnf (header row : List String) (k m : String) :
    reqField header row k ≠ .error (.fileNotFoundError m) := by
  rcases h : rowGet header row k with _ | (_ | v) <;> simp [reqField, h]

/-- Optional string access never raises `FileNotFoundError`. -/
theorem optStrField_ne_fnf (header row : List String) (k d m : String) :
    optStrField header row k d ≠ .error (.fileNotFoundError m) := by
  rcases h : rowGet header row k with _ | (_ | v) <;> simp [optStrField, h]

/-- Optional integer access never raises `FileNotFoundError`. -/
theorem optIntField_ne_fnf (header row : List String) (k : String) (d : Int)
    (m : String) : optIntField header row k d ≠ .error (.fileNotFoundError m) := by
  unfold optIntField
  rcases h : rowGet header row k with _ | (_ | v)
  · simp [h]
  · simp [h]
  · simp only [h]
    by_cases hv : v = ""
    · simp [hv]
    · simpa [hv] using pyInt_ne_fnf v m

/-- A bind of fallible steps raises `FileNotFoundError` only if a step
does. -/
theorem bind_ne_fnf {α β : Type} (x : Except PyError α)
    (f : α → Except PyError β) (m : String)
    (hx : x ≠ .error (.fileNotFoundError m))
    (hf : ∀ a, f a ≠ .error (.fileNotFoundError m)) :
    (x >>= f) ≠ .error (.fileNotFoundError m) := by
  cases x with
  | error e => simpa [Bind.bind, Except.bind] using hx
  | ok a => simpa [Bind.bind, Except.bind] using hf a

/-- The dict literal never raises `FileNotFoundError`. -/
theorem buildDeviceInfo_ne_fnf (header row : List String) (m : String) :
    buildDeviceInfo header row ≠ .error (.fileNotFoundError m) := by
  unfold buildDeviceInfo
  apply bind_ne_fnf _ _ _ (reqField_ne_fnf header row "device_name" m)
  intro dn
  apply bind_ne_fnf _ _ _ (reqField_ne_fnf header row "hostname" m)
  intro hn
  apply bind_ne_fnf _ _ _ (reqField_ne_fnf header row "username" m)
  intro un
  apply bind_ne_fnf _ _ _ (reqField_ne_fnf header row "password" m)
  intro pw
  apply bind_ne_fnf _ _ _ (reqField_ne_fnf header row "device_type" m)
  intro dt
  apply bind_ne_fnf _ _ _ (optStrField_ne_fnf header row "protocol" "ssh" m)
  intro pr
  apply bind_ne_fnf _ _ _ (optIntField_ne_fnf header row "port" 22 m)
  intro po
  apply bind_ne_fnf _ _ _ (optIntField_ne_fnf header row "timeout" 120 m)
  intro tm
  simp [pure, Except.pure]

/-- The row scan never raises `FileNotFoundError`. -/
theorem findDevice_ne_fnf (name path : String) (header : List String)
    (rows : List (List String)) (m : String) :
    findDevice name path header rows ≠ .error (.fileNotFoundError m) := by
  induction rows with
  | nil => simp [findDevice]
  | cons row rest ih =>
    unfold findDevice
    by_cases hrow : row = []
    · simpa [hrow] using ih
    · rcases h : rowGet header row "device_name" with _ | (_ | v) <;>
        simp [hrow, h]
      by_cases hv : pyStrip v = name
      · simpa [hv] using buildDeviceInfo_ne_fnf header row m
      · simpa [hv] using ih

/-- The whole `try` body never raises `FileNotFoundError`. -/
theorem readCSVBody_ne_fnf (name path : String) (file : CSVFile) (m : String) :
    readCSVBody name path file ≠ .error (.fileNotFoundError m) := by
  unfold readCSVBody
  by_cases h : required_fields.all (fun f => file.header.contains f)
  · rw [if_pos h]
    exact findDevice_ne_fnf name path file.header file.rows m
  · rw [if_neg h]
    simp

/-- An absent optional string column yields the stripped default. -/
theorem optStrField_none (header row : List String) (k d : String)
    (h : rowGet header row k = none) :
    optStrField header row k d = .ok (pyStrip d) := by
  simp [optStrField, h]

/-- An absent optional integer column yields the default. -/
theorem optIntField_none (header row : List String) (k : String) (d : Int)
    (h : rowGet header row k = none) : optIntField header row k d = .ok d := by
  simp [optIntField, h]

/-- A `None` cell (short row) in an optional integer column is falsy and
yields the default. -/
theorem optIntField_pyNone (header row : List String) (k : String) (d : Int)
    (h : rowGet header row k = some none) : optIntField header row k d = .ok d := by
  simp [optIntField, h]

/-- A blank cell in an optional integer column is falsy and yields the
default. -/
theorem optIntField_blank (header row : List String) (k : String) (d : Int)
    (h : rowGet header row k = some (some "")) :
    optIntField header row k d = .ok d := by
  simp [optIntField, h]

/-- Inversion of a successful bind. -/
theorem bind_ok_inv {α β : Type} {x : Except PyError α}
    {f : α → Except PyError β} {b : β} (h : (x >>= f) = .ok b) :
    ∃ a, x = .ok a ∧ f a = .ok b := by
  cases x with
  | error e => simp [Bind.bind, Except.bind] at h
  | ok a => exact ⟨a, rfl, by simpa [Bind.bind, Except.bind] using h⟩

/-- Inversion of a successfully assembled record: every field access
succeeded and produced the record's fields. -/
theorem buildDeviceInfo_inv (header row : List String) (info : DeviceInfo)
    (h : buildDeviceInfo header row = .ok info) :
    reqField header row "device_name" = .ok info.device_name ∧
    reqField header row "hostname" = .ok info.hostname ∧
    reqField header row "username" = .ok info.username ∧
    reqField header row "password" = .ok info.password ∧
    reqField header row "device_type" = .ok info.device_type ∧
    optStrField header row "protocol" "ssh" = .ok info.protocol ∧
    optIntField header row "port" 22 = .ok info.port ∧
    optIntField header row "timeout" 120 = .ok info.timeout := by
  unfold buildDeviceInfo at h
  obtain ⟨dn, h1, h⟩ := bind_ok_inv h
  obtain ⟨hn, h2, h⟩ := bind_ok_inv h
  obtain ⟨un, h3, h⟩ := bind_ok_inv h
  obtain ⟨pw, h4, h⟩ := bind_ok_inv h
  obtain ⟨dt, h5, h⟩ := bind_ok_inv h
  obtain ⟨pr, h6, h⟩ := bind_ok_inv h
  obtain ⟨po, h7, h⟩ := bind_ok_inv h
  obtain ⟨tm, h8, h⟩ := bind_ok_inv h
  have hinfo : info = ⟨dn, hn, un, pw, dt, pr, po, tm⟩ := by
    simpa [pure, Except.pure] using h.symm
  subst hinfo
  exact ⟨h1, h2, h3, h4, h5, h6, h7, h8⟩

/-! The claim theorems. -/

/-- C1: after `create_sample_csv` writes its file at path `p`,
`load_device_from_csv` succeeds for each of `router1`, `switch1`, `linux1`
and returns three distinct records whose fields equal the generator's
literal data with correct types (`String` fields, integer port `22`,
integer timeout `120`). -/
theorem c1_sample_round_trip (p : String) (env : Option String)
    (fs : String → Option CSVFile) (hfs : fs p = some create_sample_csv) :
    load_device_from_csv "router1" (some p) env fs =
      .ok ⟨"router1", "192.168.1.1", "admin", "password", "cisco_ios", "ssh", 22, 120⟩ ∧
    load_device_from_csv "switch1" (some p) env fs =
      .ok ⟨"switch1", "192.168.1.2", "admin", "password", "cisco_ios", "ssh", 22, 120⟩ ∧
    load_device_from_csv "linux1" (some p) env fs =
      .ok ⟨"linux1", "192.168.1.10", "root", "password", "linux", "ssh", 22, 120⟩ ∧
    (⟨"router1", "192.168.1.1", "admin", "password", "cisco_ios", "ssh", 22, 120⟩ : DeviceInfo) ≠
      ⟨"switch1", "192.168.1.2", "admin", "password", "cisco_ios", "ssh", 22, 120⟩ ∧
    (⟨"router1", "192.168.1.1", "admin", "password", "cisco_ios", "ssh", 22, 120⟩ : DeviceInfo) ≠
      ⟨"linux1", "192.168.1.10", "root", "password", "linux", "ssh", 22, 120⟩ ∧
    (⟨"switch1", "192.168.1.2", "admin", "password", "cisco_ios", "ssh", 22, 120⟩ : DeviceInfo) ≠
      ⟨"linux1", "192.168.1.10", "root", "password", "linux", "ssh", 22, 120⟩ := by
  refine ⟨?_, ?_, ?_, by decide, by decide, by decide⟩ <;>
    · rw [load_eq_of_fs _ (some p) env fs create_sample_csv hfs]
      rfl

/-- C1 witness: the round trip evaluated at a concrete path and
filesystem. -/
theorem c1_sample_round_trip_witness :
    load_device_from_csv "router1" (some "device_inventory.csv") none
        (fun _ => some create_sample_csv) =
      .ok ⟨"router1", "192.168.1.1", "admin", "password", "cisco_ios", "ssh", 22, 120⟩ :=
  (c1_sample_round_trip "device_inventory.csv" none
    (fun _ => some create_sample_csv) rfl).1

/-- C2: on a CSV with a valid header, the loader returns the record built
from the first row whose `device_name` cell, stripped, equals the requested
name exactly — earlier rows with any other stripped `device_name` are passed
over — and every string field of that row comes back stripped, with `port`
and `timeout` parsed as integers. -/
theorem c2_first_match_trimmed (name path : String) (env : Option String)
    (fs : String → Option CSVFile) (file : CSVFile)
    (pre post : List (List String)) (r : List String)
    (dn hn un pw dt pr po tm : String) (poN tmN : Int)
    (hfs : fs path = some file)
    (hhdr : required_fields.all (fun f => file.header.contains f) = true)
    (hrows : file.rows = pre ++ r :: post)
    (hpre : ∀ q ∈ pre, ∃ v,
      rowGet file.header q "device_name" = some (some v) ∧ pyStrip v ≠ name)
    (hdn : rowGet file.header r "device_name" = some (some dn))
    (hmatch : pyStrip dn = name)
    (hhn : rowGet file.header r "hostname" = some (some hn))
    (hun : rowGet file.header r "username" = some (some un))
    (hpw : rowGet file.header r "password" = some (some pw))
    (hdt : rowGet file.header r "device_type" = some (some dt))
    (hpr : rowGet file.header r "protocol" = some (some pr))
    (hpo : rowGet file.header r "port" = some (some po))
    (hpoNe : po ≠ "") (hpoV : pyInt po = .ok poN)
    (htm : rowGet file.header r "timeout" = some (some tm))
    (htmNe : tm ≠ "") (htmV : pyInt tm = .ok tmN) :
    load_device_from_csv name (some path) env fs =
      .ok ⟨pyStrip dn, pyStrip hn, pyStrip un, pyStrip pw, pyStrip dt,
           pyStrip pr, poN, tmN⟩ := by
  rw [load_eq_of_fs name (some path) env fs file hfs]
  simp only [resolve_csv_path]
  rw [readCSVBody_valid name path file hhdr, hrows,
      findDevice_append name path file.header pre (r :: post) hpre,
      findDevice_cons_found name path file.header r post dn hdn hmatch,
      buildDeviceInfo_fields file.header r (pyStrip dn) (pyStrip hn) (pyStrip un)
        (pyStrip pw) (pyStrip dt) (pyStrip pr) poN tmN
        (reqField_some file.header r "device_name" dn hdn)
        (reqField_some file.header r "hostname" hn hhn)
        (reqField_some file.header r "username" un hun)
        (reqField_some file.header r "password" pw hpw)
        (reqField_some file.header r "device_type" dt hdt)
        (optStrField_some file.header r "protocol" "ssh" pr hpr)
        ((optIntField_some file.header r "port" 22 po hpo hpoNe).trans hpoV)
        ((optIntField_some file.header r "timeout" 120 tm htm htmNe).trans htmV)]

/-- C2 witness: the second sample row is found by exact match after skipping
the first. -/
theorem c2_first_match_trimmed_witness :
    load_device_from_csv "switch1" (some "inv.csv") none
        (fun _ => some create_sample_csv) =
      .ok ⟨pyStrip "switch1", pyStrip "192.168.1.2", pyStrip "admin",
           pyStrip "password", pyStrip "cisco_ios", pyStrip "ssh", 22, 120⟩ :=
  c2_first_match_trimmed "switch1" "inv.csv" none (fun _ => some create_sample_csv)
    create_sample_csv
    [["router1", "192.168.1.1", "admin", "password", "cisco_ios", "ssh", "22", "120"]]
    [["linux1", "192.168.1.10", "root", "password", "linux", "ssh", "22", "120"]]
    ["switch1", "192.168.1.2", "admin", "password", "cisco_ios", "ssh", "22", "120"]
    "switch1" "192.168.1.2" "admin" "password" "cisco_ios" "ssh" "22" "120" 22 120
    rfl (by decide) rfl
    (by
      intro q hq
      rw [List.mem_singleton] at hq
      subst hq
      exact ⟨"router1", by decide, by decide⟩)
    (by decide) (by decide)
    (by decide) (by decide) (by decide) (by decide)
    (by decide)
    (by decide) (by decide) rfl
    (by decide) (by decide) rfl

/-- C3 counterexample: the claim predicts that a blank `protocol` value
defaults to `ssh`, but `row.get('protocol', 'ssh')` returns the present
blank cell, so the loaded record's protocol is the empty string. -/
theorem c3_blank_protocol_counterexample :
    (load_device_from_csv "d" (some "inv.csv") none (fun _ =>
        some ⟨["device_name", "hostname", "username", "password", "device_type",
               "protocol", "port", "timeout"],
              [["d", "h", "u", "p", "t", "", "", ""]]⟩)).map DeviceInfo.protocol
      = .ok "" ∧
    ("" : String) ≠ "ssh" := by
  exact ⟨rfl, by decide⟩

/-- C3 (amended): for every successfully assembled row record, `protocol`
defaults to `ssh` only when the column is absent from the header; a present
blank (or any) protocol cell is returned stripped as-is.  `port` and
`timeout` default to `22` and `120` when the column is absent, when the cell
is missing (short row), and when the cell is blank, and are parsed as
integers when present and non-blank. -/
theorem c3_amended_defaults (header row : List String) (info : DeviceInfo)
    (h : buildDeviceInfo header row = .ok info) :
    (rowGet header row "protocol" = none → info.protocol = "ssh") ∧
    (∀ v, rowGet header row "protocol" = some (some v) → info.protocol = pyStrip v) ∧
    (rowGet header row "port" = none → info.port = 22) ∧
    (rowGet header row "port" = some none → info.port = 22) ∧
    (rowGet header row "port" = some (some "") → info.port = 22) ∧
    (∀ v n, rowGet header row "port" = some (some v) → v ≠ "" →
      pyInt v = .ok n → info.port = n) ∧
    (rowGet header row "timeout" = none → info.timeout = 120) ∧
    (rowGet header row "timeout" = some none → info.timeout = 120) ∧
    (rowGet header row "timeout" = some (some "") → info.timeout = 120) ∧
    (∀ v n, rowGet header row "timeout" = some (some v) → v ≠ "" →
      pyInt v = .ok n → info.timeout = n) := by
  obtain ⟨-, -, -, -, -, hproto, hport, htime⟩ := buildDeviceInfo_inv header row info h
  refine ⟨?_, ?_, ?_, ?_, ?_, ?_, ?_, ?_, ?_, ?_⟩
  · intro hp
    have h0 := (optStrField_none header row "protocol" "ssh" hp).symm.trans hproto
    have h1 : pyStrip "ssh" = info.protocol := by simpa using h0
    rw [← h1]
    decide
  · intro v hv
    have h0 := (optStrField_some header row "protocol" "ssh" v hv).symm.trans hproto
    simpa using h0.symm
  · intro hp
    have h0 := (optIntField_none header row "port" 22 hp).symm.trans hport
    simpa using h0.symm
  · intro hp
    have h0 := (optIntField_pyNone header row "port" 22 hp).symm.trans hport
    simpa using h0.symm
  · intro hp
    have h0 := (optIntField_blank header row "port" 22 hp).symm.trans hport
    simpa using h0.symm
  · intro v n hv hne hparse
    have h0 := ((optIntField_some header row "port" 22 v hv hne).trans hparse).symm.trans hport
    simpa using h0.symm
  · intro hp
    have h0 := (optIntField_none header row "timeout" 120 hp).symm.trans htime
    simpa using h0.symm
  · intro hp
    have h0 := (optIntField_pyNone header row "timeout" 120 hp).symm.trans htime
    simpa using h0.symm
  · intro hp
    have h0 := (optIntField_blank header row "timeout" 120 hp).symm.trans htime
    simpa using h0.symm
  · intro v n hv hne hparse
    have h0 := ((optIntField_some header row "timeout" 120 v hv hne).trans hparse).symm.trans htime
    simpa using h0.symm

/-- C3 witness: a record whose header lacks `protocol` and whose `port` cell
is blank gets `ssh`, `22` and a parsed `timeout`. -/
theorem c3_amended_defaults_witness :
    buildDeviceInfo
        ["device_name", "hostname", "username", "password", "device_type", "port", "timeout"]
        ["d", "h", "u", "p", "t", "", "7"] =
      .ok ⟨"d", "h", "u", "p", "t", "ssh", 22, 7⟩ ∧
    (⟨"d", "h", "u", "p", "t", "ssh", 22, 7⟩ : DeviceInfo).protocol = "ssh" ∧
    (⟨"d", "h", "u", "p", "t", "ssh", 22, 7⟩ : DeviceInfo).port = 22 ∧
    (⟨"d", "h", "u", "p", "t", "ssh", 22, 7⟩ : DeviceInfo).timeout = 7 := by
  have h : buildDeviceInfo
      ["device_name", "hostname", "username", "password", "device_type", "port", "timeout"]
      ["d", "h", "u", "p", "t", "", "7"] =
      .ok ⟨"d", "h", "u", "p", "t", "ssh", 22, 7⟩ := rfl
  obtain ⟨h1, -, -, -, h2, -, -, -, -, h3⟩ :=
    c3_amended_defaults _ _ ⟨"d", "h", "u", "p", "t", "ssh", 22, 7⟩ h
  exact ⟨h, h1 (by decide), h2 (by decide), h3 "7" 7 (by decide) (by decide) rfl⟩

/-- C4: the loader fails with its not-found errors in exactly the two lookup
cases — a missing file at the resolved path (`FileNotFoundError`, raised
before any content is read and naming the path), and a full scan with no
matching row (`ValueError` naming the device and the path, wrapped by the
`except` clause); conversely `FileNotFoundError` arises only when the file
lookup failed. -/
theorem c4_not_found (name : String) (csv_path env : Option String) :
    (∀ fs : String → Option CSVFile,
      fs (resolve_csv_path csv_path env) = none →
      load_device_from_csv name csv_path env fs =
        .error (.fileNotFoundError
          ("Device inventory CSV file not found: " ++ resolve_csv_path csv_path env))) ∧
    (∀ (fs : String → Option CSVFile) (file : CSVFile),
      fs (resolve_csv_path csv_path env) = some file →
      required_fields.all (fun f => file.header.contains f) = true →
      (∀ q ∈ file.rows, ∃ v,
        rowGet file.header q "device_name" = some (some v) ∧ pyStrip v ≠ name) →
      load_device_from_csv name csv_path env fs =
        .error (.valueError ("Error reading device inventory CSV: " ++
          ("Device '" ++ name ++ "' not found in CSV file: " ++
            resolve_csv_path csv_path env)))) ∧
    (∀ (fs : String → Option CSVFile) (m : String),
      load_device_from_csv name csv_path env fs = .error (.fileNotFoundError m) →
      fs (resolve_csv_path csv_path env) = none) := by
  refine ⟨?_, ?_, ?_⟩
  · intro fs hfs
    simp only [load_device_from_csv]
    rw [hfs]
  · intro fs file hfs hhdr hnone
    rw [load_eq_of_fs name csv_path env fs file hfs,
        readCSVBody_valid name (resolve_csv_path csv_path env) file hhdr]
    have hrw : file.rows = file.rows ++ [] := by simp
    rw [hrw, findDevice_append name (resolve_csv_path csv_path env) file.header
        file.rows [] hnone]
    rfl
  · intro fs m hload
    cases hfs : fs (resolve_csv_path csv_path env) with
    | none => rfl
    | some file =>
      exfalso
      rw [load_eq_of_fs name csv_path env fs file hfs] at hload
      cases hbody : readCSVBody name (resolve_csv_path csv_path env) file with
      | ok info => simp [hbody] at hload
      | error e =>
        simp only [hbody] at hload
        by_cases hp : e.isParse
        · rw [if_pos hp] at hload
          simp at hload
        · rw [if_neg hp] at hload
          have he : e = .fileNotFoundError m := by simpa using hload
          exact readCSVBody_ne_fnf name (resolve_csv_path csv_path env) file m
            (hbody.trans (by rw [he]))

/-- C4 witness: both not-found cases evaluated concretely, plus the converse
direction applied to the first case's outcome. -/
theorem c4_not_found_witness :
    load_device_from_csv "x" (some "missing.csv") none (fun _ => none) =
      .error (.fileNotFoundError
        ("Device inventory CSV file not found: " ++ resolve_csv_path (some "missing.csv") none)) ∧
    load_device_from_csv "nope" (some "inv.csv") none (fun _ => some create_sample_csv) =
      .error (.valueError ("Error reading device inventory CSV: " ++
        ("Device '" ++ "nope" ++ "' not found in CSV file: " ++
          resolve_csv_path (some "inv.csv") none))) ∧
    (fun (_ : String) => (none : Option CSVFile)) (resolve_csv_path (some "missing.csv") none) = none := by
  have h1 := (c4_not_found "x" (some "missing.csv") none).1 (fun _ => none) rfl
  refine ⟨h1, ?_, ?_⟩
  · refine (c4_not_found "nope" (some "inv.csv") none).2.1
      (fun _ => some create_sample_csv) create_sample_csv rfl (by decide) ?_
    intro q hq
    simp [create_sample_csv] at hq
    rcases hq with h | h | h
    · subst h; exact ⟨"router1", by decide, by decide⟩
    · subst h; exact ⟨"switch1", by decide, by decide⟩
    · subst h; exact ⟨"linux1", by decide, by decide⟩
  · exact (c4_not_found "x" (some "missing.csv") none).2.2 (fun _ => none) _ h1

/-- C5: a header lacking required columns makes the loader fail with the
(wrapped) `ValueError` whose message lists the missing required columns, and
that list holds exactly the required columns absent from the header. -/
theorem c5_missing_header_fields (name : String) (csv_path env : Option String)
    (fs : String → Option CSVFile) (file : CSVFile)
    (hfs : fs (resolve_csv_path csv_path env) = some file)
    (hmiss : required_fields.filter (fun f => !(file.header.contains f)) ≠ []) :
    load_device_from_csv name csv_path env fs =
      .error (.valueError ("Error reading device inventory CSV: " ++
        ("CSV file missing required fields: " ++
          pyReprStrList (required_fields.filter (fun f => !(file.header.contains f)))))) ∧
    (∀ f, f ∈ required_fields.filter (fun f => !(file.header.contains f)) ↔
      (f ∈ required_fields ∧ ¬ f ∈ file.header)) := by
  constructor
  · have hall : ¬ required_fields.all (fun f => file.header.contains f) = true := by
      intro hc
      apply hmiss
      rw [List.filter_eq_nil_iff]
      intro a ha
      rw [List.all_eq_true] at hc
      simpa using hc a ha
    have hbody : readCSVBody name (resolve_csv_path csv_path env) file =
        .error (.valueError ("CSV file missing required fields: " ++
          pyReprStrList (required_fields.filter (fun f => !(file.header.contains f))))) := by
      unfold readCSVBody
      rw [if_neg hall]
    rw [load_eq_of_fs name csv_path env fs file hfs, hbody]
    rfl
  · intro f
    simp [List.mem_filter]

/-- C5 witness: a header without `username` and `password` is rejected with
exactly those two columns listed. -/
theorem c5_missing_header_fields_witness :
    load_device_from_csv "d" (some "inv.csv") none
        (fun _ => some ⟨["device_name", "hostname", "device_type"], []⟩) =
      .error (.valueError ("Error reading device inventory CSV: " ++
        ("CSV file missing required fields: " ++
          pyReprStrList (required_fields.filter (fun f =>
            !((["device_name", "hostname", "device_type"] : List String).contains f)))))) ∧
    ("username" ∈ required_fields.filter (fun f =>
      !((["device_name", "hostname", "device_type"] : List String).contains f)) ↔
      ("username" ∈ required_fields ∧
        ¬ "username" ∈ (["device_name", "hostname", "device_type"] : List String))) := by
  have h := c5_missing_header_fields "d" (some "inv.csv") none
    (fun _ => some ⟨["device_name", "hostname", "device_type"], []⟩)
    ⟨["device_name", "hostname", "device_type"], []⟩ rfl (by decide)
  exact ⟨h.1, h.2 "username"⟩


/-- A `None` cell under a required key raises `AttributeError` from
`.strip()`. -/
theorem reqField_pyNone (header row : List String) (k : String)
    (h : rowGet header row k = some none) :
    reqField header row k =
      .error (.attributeError "'NoneType' object has no attribute 'strip'") := by
  simp [reqField, h]

/-- A failing `hostname` entry aborts the dict literal with that error. -/
theorem buildDeviceInfo_hostname_error (header row : List String)
    (dn : String) (e : PyError)
    (h1 : reqField header row "device_name" = .ok dn)
    (h2 : reqField header row "hostname" = .error e) :
    buildDeviceInfo header row = .error e := by
  unfold buildDeviceInfo
  rw [h1, h2]
  rfl

/-- C6: an integer-conversion failure on the matched row's `port` value is
re-signaled as the wrapped `ValueError` with the underlying `int()` message
embedded (the `except (csv.Error, ValueError)` clause), while an error
outside those classes — here the `AttributeError` from calling `.strip()`
on a `None` `hostname` cell of a short matched row — propagates to the
caller unchanged. -/
theorem c6_error_resignaling (name : String) (env : Option String) :
    (∀ (path : String) (fs : String → Option CSVFile) (file : CSVFile)
       (pre post : List (List String)) (r : List String)
       (dn hn un pw dt pr po : String),
      fs path = some file →
      required_fields.all (fun f => file.header.contains f) = true →
      file.rows = pre ++ r :: post →
      (∀ q ∈ pre, ∃ v,
        rowGet file.header q "device_name" = some (some v) ∧ pyStrip v ≠ name) →
      rowGet file.header r "device_name" = some (some dn) → pyStrip dn = name →
      rowGet file.header r "hostname" = some (some hn) →
      rowGet file.header r "username" = some (some un) →
      rowGet file.header r "password" = some (some pw) →
      rowGet file.header r "device_type" = some (some dt) →
      rowGet file.header r "protocol" = some (some pr) →
      rowGet file.header r "port" = some (some po) → po ≠ "" →
      pyIntCore (pyStrip po).data = none →
      load_device_from_csv name (some path) env fs =
        .error (.valueError ("Error reading device inventory CSV: " ++
          ("invalid literal for int() with base 10: '" ++ po ++ "'")))) ∧
    (∀ (path : String) (fs : String → Option CSVFile) (file : CSVFile)
       (pre post : List (List String)) (r : List String) (dn : String),
      fs path = some file →
      required_fields.all (fun f => file.header.contains f) = true →
      file.rows = pre ++ r :: post →
      (∀ q ∈ pre, ∃ v,
        rowGet file.header q "device_name" = some (some v) ∧ pyStrip v ≠ name) →
      rowGet file.header r "device_name" = some (some dn) → pyStrip dn = name →
      rowGet file.header r "hostname" = some none →
      load_device_from_csv name (some path) env fs =
        .error (.attributeError "'NoneType' object has no attribute 'strip'")) := by
  constructor
  · intro path fs file pre post r dn hn un pw dt pr po hfs hhdr hrows hpre
      hdn hmatch hhn hun hpw hdt hpr hpo hpoNe hpoCore
    have hparse : pyInt po =
        .error (.valueError ("invalid literal for int() with base 10: '" ++ po ++ "'")) := by
      unfold pyInt
      rw [hpoCore]
    rw [load_eq_of_fs name (some path) env fs file hfs]
    simp only [resolve_csv_path]
    rw [readCSVBody_valid name path file hhdr, hrows,
        findDevice_append name path file.header pre (r :: post) hpre,
        findDevice_cons_found name path file.header r post dn hdn hmatch,
        buildDeviceInfo_port_error file.header r (pyStrip dn) (pyStrip hn)
          (pyStrip un) (pyStrip pw) (pyStrip dt) (pyStrip pr) _
          (reqField_some file.header r "device_name" dn hdn)
          (reqField_some file.header r "hostname" hn hhn)
          (reqField_some file.header r "username" un hun)
          (reqField_some file.header r "password" pw hpw)
          (reqField_some file.header r "device_type" dt hdt)
          (optStrField_some file.header r "protocol" "ssh" pr hpr)
          ((optIntField_some file.header r "port" 22 po hpo hpoNe).trans hparse)]
    rfl
  · intro path fs file pre post r dn hfs hhdr hrows hpre hdn hmatch hhn
    rw [load_eq_of_fs name (some path) env fs file hfs]
    simp only [resolve_csv_path]
    rw [readCSVBody_valid name path file hhdr, hrows,
        findDevice_append name path file.header pre (r :: post) hpre,
        findDevice_cons_found name path file.header r post dn hdn hmatch,
        buildDeviceInfo_hostname_error file.header r (pyStrip dn) _
          (reqField_some file.header r "device_name" dn hdn)
          (reqField_pyNone file.header r "hostname" hhn)]
    rfl

/-- C6 witness: a non-numeric `port` cell yields the wrapped `ValueError`;
a matched row shorter than the header yields the unwrapped
`AttributeError`. -/
theorem c6_error_resignaling_witness :
    load_device_from_csv "d" (some "inv.csv") none (fun _ =>
        some ⟨["device_name", "hostname", "username", "password", "device_type",
               "protocol", "port"],
              [["d", "h", "u", "p", "t", "ssh", "9x"]]⟩) =
      .error (.valueError ("Error reading device inventory CSV: " ++
        ("invalid literal for int() with base 10: '" ++ "9x" ++ "'"))) ∧
    load_device_from_csv "d" (some "inv.csv") none (fun _ =>
        some ⟨["device_name", "hostname", "username", "password", "device_type"],
              [["x", "h2", "u2", "p2", "t2"], ["d"]]⟩) =
      .error (.attributeError "'NoneType' object has no attribute 'strip'") := by
  constructor
  · exact (c6_error_resignaling "d" none).1 "inv.csv" _ _ [] [] _
      "d" "h" "u" "p" "t" "ssh" "9x" rfl (by decide) rfl (by intro q hq; simp at hq)
      (by decide) (by decide) (by decide) (by decide) (by decide) (by decide)
      (by decide) (by decide) (by decide) (by decide)
  · refine (c6_error_resignaling "d" none).2 "inv.csv" _ _
      [["x", "h2", "u2", "p2", "t2"]] [] ["d"] "d" rfl (by decide) rfl ?_
      (by decide) (by decide) (by decide)
    intro q hq
    rw [List.mem_singleton] at hq
    subst hq
    exact ⟨"x", by decide, by decide⟩

/-- Key-membership tests on the input dictionary, one per required key. -/
theorem dictHasKey_device_name (d : DeviceDict) :
    dictHasKey d "device_name" = d.device_name.isSome := rfl

/-- Key-membership test for `hostname`. -/
theorem dictHasKey_hostname (d : DeviceDict) :
    dictHasKey d "hostname" = d.hostname.isSome := rfl

/-- Key-membership test for `username`. -/
theorem dictHasKey_username (d : DeviceDict) :
    dictHasKey d "username" = d.username.isSome := rfl

/-- Key-membership test for `password`. -/
theorem dictHasKey_password (d : DeviceDict) :
    dictHasKey d "password" = d.password.isSome := rfl

/-- Key-membership test for `device_type`. -/
theorem dictHasKey_device_type (d : DeviceDict) :
    dictHasKey d "device_type" = d.device_type.isSome := rfl

/-- A dictionary carrying all five required keys has no missing fields. -/
theorem connect_missing_nil (d : DeviceDict)
    (h1 : d.device_name.isSome = true) (h2 : d.hostname.isSome = true)
    (h3 : d.username.isSome = true) (h4 : d.password.isSome = true)
    (h5 : d.device_type.isSome = true) :
    connect_missing d = [] := by
  simp [connect_missing, required_fields, dictHasKey_device_name,
    dictHasKey_hostname, dictHasKey_username, dictHasKey_password,
    dictHasKey_device_type, h1, h2, h3, h4, h5]

/-- C7: with any required key absent from the input dictionary,
`connect_to_device` fails with the `ValueError` naming all the missing
keys — before any device object is constructed, in both backend modes —
and the listed keys are exactly the required keys absent from the input. -/
theorem c7_missing_input_keys (pyats : Bool) (d : DeviceDict)
    (hmiss : connect_missing d ≠ []) :
    connect_to_device pyats d =
      .error (.valueError ("Missing required device information: " ++
        pyReprStrList (connect_missing d))) ∧
    (∀ f, f ∈ connect_missing d ↔ (f ∈ required_fields ∧ dictHasKey d f = false)) := by
  constructor
  · unfold connect_to_device
    rw [if_neg hmiss]
  · intro f
    simp [connect_missing, List.mem_filter]

/-- C7 witness: a record without `username` is rejected, and `username` is
among the enumerated missing keys. -/
theorem c7_missing_input_keys_witness :
    connect_to_device false
        { device_name := some "r", hostname := some "h", password := some "p",
          device_type := some "t" } =
      .error (.valueError ("Missing required device information: " ++
        pyReprStrList (connect_missing
          { device_name := some "r", hostname := some "h", password := some "p",
            device_type := some "t" }))) ∧
    ("username" ∈ connect_missing
        { device_name := some "r", hostname := some "h", password := some "p",
          device_type := some "t" } ↔
      ("username" ∈ required_fields ∧
        dictHasKey
          { device_name := some "r", hostname := some "h", password := some "p",
            device_type := some "t" } "username" = false)) := by
  have h := c7_missing_input_keys false
    { device_name := some "r", hostname := some "h", password := some "p",
      device_type := some "t" } (by decide)
  exact ⟨h.1, h.2 "username"⟩

/-- C8: without a backend, `connect_to_device` on a complete record returns
the mock stand-in carrying the input's name and whole dictionary, initially
disconnected; `connect` sets and `disconnect` clears the flag reported by
`is_connected`, and `execute`/`parse`/`configure` return placeholder values
embedding the given command or config text. -/
theorem c8_mock_fallback (d : DeviceDict) (dn : String)
    (hdn : d.device_name = some dn)
    (hhn : d.hostname.isSome = true) (hun : d.username.isSome = true)
    (hpw : d.password.isSome = true) (hdt : d.device_type.isSome = true) :
    connect_to_device false d = .ok (.mock (MockDevice.mk dn false d)) ∧
    MockDevice.is_connected (MockDevice.mk dn false d) = false ∧
    MockDevice.is_connected (MockDevice.connect (MockDevice.mk dn false d)) = true ∧
    MockDevice.is_connected
      (MockDevice.disconnect (MockDevice.connect (MockDevice.mk dn false d))) = false ∧
    (∀ c, MockDevice.execute (MockDevice.mk dn false d) c =
      "Mock output for command: " ++ c) ∧
    (∀ c, MockDevice.parse (MockDevice.mk dn false d) c =
      [("mock", "parsed output"), ("command", c)]) ∧
    (∀ cfg, MockDevice.configure (MockDevice.mk dn false d) cfg =
      "Mock config applied: " ++ cfg) := by
  have hm : connect_missing d = [] :=
    connect_missing_nil d (by simp [hdn]) hhn hun hpw hdt
  refine ⟨?_, rfl, rfl, rfl, fun c => rfl, fun c => rfl, fun cfg => rfl⟩
  unfold connect_to_device
  rw [if_pos hm]
  simp [hdn]

/-- C8 witness: the mock fallback evaluated on a concrete complete record. -/
theorem c8_mock_fallback_witness :
    connect_to_device false
        { device_name := some "r1", hostname := some "h", username := some "u",
          password := some "p", device_type := some "t" } =
      .ok (.mock (MockDevice.mk "r1" false
        { device_name := some "r1", hostname := some "h", username := some "u",
          password := some "p", device_type := some "t" })) ∧
    MockDevice.execute
        (MockDevice.mk "r1" false
          { device_name := some "r1", hostname := some "h", username := some "u",
            password := some "p", device_type := some "t" }) "show version" =
      "Mock output for command: " ++ "show version" := by
  have h := c8_mock_fallback
    { device_name := some "r1", hostname := some "h", username := some "u",
      password := some "p", device_type := some "t" } "r1" rfl rfl rfl rfl rfl
  exact ⟨h.1, h.2.2.2.2.1 "show version"⟩

/-- C9: with the backend available, the single-device topology dictionary
built from a complete record lacking an `os` key always carries
`os = "ios"` (whatever the `device_type`, including `linux`), and its
connection block holds the record's protocol, hostname as `ip`, port,
username, password, and timeout as `connection_timeout`, with the `ssh`,
`22` and `120` defaults. -/
theorem c9_testbed_os_default (d : DeviceDict) (dn hn un pw dt : String)
    (hdn : d.device_name = some dn) (hhn : d.hostname = some hn)
    (hun : d.username = some un) (hpw : d.password = some pw)
    (hdt : d.device_type = some dt) (hos : d.os = none) :
    connect_to_device true d =
      .ok (.pyats dn
        { type := dt, os := "ios",
          connections_default :=
            { protocol := d.protocol.getD "ssh", ip := hn,
              port := d.port.getD 22, username := un, password := pw,
              connection_timeout := d.timeout.getD 120 } }) := by
  have hm : connect_missing d = [] :=
    connect_missing_nil d (by simp [hdn]) (by simp [hhn]) (by simp [hun])
      (by simp [hpw]) (by simp [hdt])
  unfold connect_to_device
  rw [if_pos hm]
  simp [hdn, hhn, hun, hpw, hdt, hos]

/-- C9 witness: a `linux` record still gets `os = "ios"` and the default
connection parameters. -/
theorem c9_testbed_os_default_witness :
    connect_to_device true
        { device_name := some "lx", hostname := some "10.0.0.1",
          username := some "root", password := some "pw",
          device_type := some "linux" } =
      .ok (.pyats "lx"
        { type := "linux", os := "ios",
          connections_default :=
            { protocol := "ssh", ip := "10.0.0.1", port := 22,
              username := "root", password := "pw",
              connection_timeout := 120 } }) :=
  c9_testbed_os_default
    { device_name := some "lx", hostname := some "10.0.0.1",
      username := some "root", password := some "pw",
      device_type := some "linux" }
    "lx" "10.0.0.1" "root" "pw" "linux" rfl rfl rfl rfl rfl rfl

/-- C10 (implicit): `connect_to_device` never connects — the mock stand-in
it returns for a complete record reports `is_connected() = False` right
after creation, and reports `True` only once the caller itself invokes
`connect`. -/
theorem c10_no_connection_on_creation (d : DeviceDict) (dn : String)
    (hdn : d.device_name = some dn)
    (hhn : d.hostname.isSome = true) (hun : d.username.isSome = true)
    (hpw : d.password.isSome = true) (hdt : d.device_type.isSome = true) :
    connect_to_device false d = .ok (.mock (MockDevice.mk dn false d)) ∧
    MockDevice.is_connected (MockDevice.mk dn false d) = false ∧
    MockDevice.is_connected (MockDevice.connect (MockDevice.mk dn false d)) = true := by
  have hm : connect_missing d = [] :=
    connect_missing_nil d (by simp [hdn]) hhn hun hpw hdt
  refine ⟨?_, rfl, rfl⟩
  unfold connect_to_device
  rw [if_pos hm]
  simp [hdn]

/-- C10 witness: the stand-in is disconnected at creation and connected only
after an explicit `connect`. -/
theorem c10_no_connection_on_creation_witness :
    connect_to_device false
        { device_name := some "sw", hostname := some "h", username := some "u",
          password := some "p", device_type := some "t" } =
      .ok (.mock (MockDevice.mk "sw" false
        { device_name := some "sw", hostname := some "h", username := some "u",
          password := some "p", device_type := some "t" })) ∧
    MockDevice.is_connected (MockDevice.mk "sw" false
      { device_name := some "sw", hostname := some "h", username := some "u",
        password := some "p", device_type := some "t" }) = false ∧
    MockDevice.is_connected (MockDevice.connect (MockDevice.mk "sw" false
      { device_name := some "sw", hostname := some "h", username := some "u",
        password := some "p", device_type := some "t" })) = true :=
  c10_no_connection_on_creation
    { device_name := some "sw", hostname := some "h", username := some "u",
      password := some "p", device_type := some "t" } "sw" rfl rfl rfl rfl rfl
